import Mathlib

/-!
Verification development for the CMIP6 statistically-downscaled-over-Italy
download tool. The definitions below are a shallow embedding of
src/data_download.py: the static catalog tables, the combination
enumerator with its validity, year and freshness filters, the output-path
builder, the request-payload builder, and the fetch loop (modelled as a
state machine over an abstract file system, with an oracle standing for
the external retrieval collaborator). Python exceptions are modelled with
Option: a `none` result stands for an uncaught exception.
-/

namespace DataDownload

/-- Catalog: the list `modes` from data_download.py. -/
def modes : List String := ["hist", "future"]

/-- Catalog: the list `variables` from data_download.py. -/
def variables_list : List String := ["hurs", "pr", "sfcWind", "tas", "tasmax", "tasmin"]

/-- Catalog: the entry scenarios["future"] of the `scenarios` dict
(the only entry the program ever reads; scenarios["hist"] is the empty list). -/
def scenarios_future : List String := ["ssp126", "ssp370"]

/-- Catalog: the list `models` from data_download.py. -/
def models : List String :=
  ["CESM2", "CMCC-CM2-SR5", "CNRM-ESM2-1", "EC-Earth3-Veg", "IPSL-CM6A-LR",
   "MIROC6", "MPI-ESM1-2-HR", "NorESM2-MM", "UKESM1-0-LL"]

/-- The dict `models_var_assocs`, as a lookup from model name to its pair of
per-mode variable whitelists (hist list, future list); `none` means the model
is not a key of the dict. -/
def model_assocs (model : String) : Option (List String × List String) :=
  match model with
  | "CESM2" => some (["pr", "sfcWind", "tas"], ["pr", "sfcWind", "tas"])
  | "CMCC-CM2-SR5" => some (["hurs", "pr", "sfcWind", "tas"], ["hurs", "pr", "sfcWind", "tas"])
  | "CNRM-ESM2-1" =>
      some (["hurs", "pr", "tas", "tasmax", "tasmin"], ["hurs", "pr", "tas", "tasmax", "tasmin"])
  | "EC-Earth3-Veg" =>
      some (["hurs", "pr", "tas", "tasmax", "tasmin"], ["hurs", "pr", "tas", "tasmax", "tasmin"])
  | "IPSL-CM6A-LR" => some (variables_list, variables_list)
  | "MIROC6" => some (variables_list, variables_list)
  | "MPI-ESM1-2-HR" => some (variables_list, variables_list)
  | "NorESM2-MM" => some (variables_list, variables_list)
  | "UKESM1-0-LL" => some (variables_list, variables_list)
  | _ => none

/-- The double indexing models_var_assocs[model][mode]: `none` when the model
is not a key, or when the mode is not one of the two per-model keys
(the latter would be a KeyError in Python). -/
def models_var_assocs (model mode : String) : Option (List String) :=
  (model_assocs model).bind fun hf =>
    if mode = "hist" then some hf.1
    else if mode = "future" then some hf.2
    else none

/-- Function cdd_varname: the adjusted variable name, variable plus the
fixed suffix. -/
def cdd_varname (vr : String) : String := vr ++ "Adjust"

/-- Function cdd_variant: the API variant identifier for a variable and a mode. -/
def cdd_variant (vr mode : String) : String := vr ++ "-" ++ mode

/-- Function make_scenarios: if the proposed list contains the sentinel
"default", expand to [None] for mode "hist" and to scenarios["future"]
otherwise; else return the proposed list unchanged. CLI scenario strings are
embedded as `some`; `none` is the Python None (absent scenario). -/
def make_scenarios (proposed_scenarios : List (Option String)) (mode : String) :
    List (Option String) :=
  if proposed_scenarios.contains (some "default") then
    if mode = "hist" then [none] else scenarios_future.map some
  else proposed_scenarios

/-- Function outname: the output path of a task, as a string with segments
joined by "/". Mirrors the Python truthiness test `if scenario:`, under which
both None and the empty string take the branch without the scenario segment. -/
def outname (ds_root_dir mode model vr : String) (scenario : Option String)
    (years : List Int) : String :=
  match scenario with
  | some s =>
      if s = "" then
        ds_root_dir ++ "/" ++ mode ++ "/" ++ model ++ "/" ++ cdd_varname vr ++ "/" ++
          String.intercalate "_" (years.map (fun y => toString y)) ++ ".nc"
      else
        ds_root_dir ++ "/" ++ mode ++ "/" ++ s ++ "/" ++ model ++ "/" ++ cdd_varname vr ++
          "/" ++ String.intercalate "_" (years.map (fun y => toString y)) ++ ".nc"
  | none =>
      ds_root_dir ++ "/" ++ mode ++ "/" ++ model ++ "/" ++ cdd_varname vr ++ "/" ++
        String.intercalate "_" (years.map (fun y => toString y)) ++ ".nc"

/-- The Boolean test of the scenario/mode pairing inside valid_combo:
(scenario in scenarios["future"] and mode == "future") or
(scenario is None and mode == "hist"). Python membership of None in a list of
strings is False, which the `Option.map some` embedding reproduces. -/
def scenario_mode_ok (mode : String) (scenario : Option String) : Bool :=
  ((scenarios_future.map some).contains scenario && mode == "future") ||
    (scenario == none && mode == "hist")

/-- Function valid_combo. The Python body first computes compatible_var:
`model in models_var_assocs and variable in models_var_assocs[model][mode]`;
when the model is a key and the mode is not, the indexing raises KeyError,
modelled as `none`. Otherwise the result is the scenario/mode test
conjoined with compatible_var. -/
def valid_combo (mode model vr : String) (scenario : Option String) : Option Bool :=
  match model_assocs model with
  | none => some (scenario_mode_ok mode scenario && false)
  | some hf =>
      if mode = "hist" then some (scenario_mode_ok mode scenario && hf.1.contains vr)
      else if mode = "future" then some (scenario_mode_ok mode scenario && hf.2.contains vr)
      else none

/-- Function valid_year: the mode-specific inclusive year range; any other
mode raises, modelled as `none`. -/
def valid_year (year : Int) (mode : String) : Option Bool :=
  if mode = "hist" then some (decide (1985 ≤ year) && decide (year ≤ 2014))
  else if mode = "future" then some (decide (2015 ≤ year) && decide (year ≤ 2100))
  else none

/-- The assertion at the start of request_payload. -/
def payload_assert (model vr : String) (scenario : Option String) : Bool :=
  models.contains model && variables_list.contains vr &&
    (scenario == none || (scenarios_future.map some).contains scenario)

/-- The request dict built by request_payload: field names follow the Python
keys; the scenario field is present exactly when the Python
`if scenario:` test is truthy. -/
structure Payload where
  model : String
  var_list : List String
  time_year : List String
  time_month : List String
  time_day : List String
  format : String
  scenario : Option String
  deriving Repr, DecidableEq

/-- Function request_payload: `none` models the AssertionError when the
assertion fails; otherwise the request dict. -/
def request_payload (model vr : String) (scenario : Option String)
    (years : List Int) : Option Payload :=
  if payload_assert model vr scenario then
    some
      { model := model
        var_list := [cdd_varname vr]
        time_year := years.map (fun y => toString y)
        time_month := (List.range 12).map (fun i => toString (i + 1))
        time_day := (List.range 31).map (fun i => toString (i + 1))
        format := "netcdf"
        scenario :=
          match scenario with
          | some s => if s = "" then none else some s
          | none => none }
  else none

/-- A work item of the fetch loop: the tuple
(str(args.mode), model, variable, scenario, [year]) pushed on the stack by the
list comprehension in main. -/
structure FetchTask where
  mode : String
  model : String
  vr : String
  scenario : Option String
  years : List Int
  deriving Repr, DecidableEq

/-- The Python `range(from_year, to_year + 1)`: the integers from `y0` to `y1`
inclusive, empty when `y0 > y1`. -/
def years_range (y0 y1 : Int) : List Int :=
  (List.range (y1 + 1 - y0).toNat).map (fun i => y0 + (i : Int))

/-- The unfiltered candidate tuples (scenario, model, variable, year) of the
list comprehension in main, in its nesting order: scenario outermost, then
model, then variable, year innermost. -/
def stack_candidates (sel : List (Option String)) (mode : String)
    (msel vsel : List String) (y0 y1 : Int) :
    List (Option String × String × String × Int) :=
  (make_scenarios sel mode).flatMap fun sc =>
    msel.flatMap fun model =>
      vsel.flatMap fun v =>
        (years_range y0 y1).map fun year => (sc, model, v, year)

/-- The comprehension guard
`valid_combo(...) and valid_year(...) and not outname(...).exists()`, with the
Python short-circuit order: valid_year is only evaluated (and can only raise)
when valid_combo returned True. The existence test on disk is abstracted by
the predicate `ex` on path strings. -/
def keepO (root mode : String) (ex : String → Bool) :
    Option String × String × String × Int → Option Bool :=
  fun c =>
    match c with
    | (sc, model, v, year) =>
      (valid_combo mode model v sc).bind fun b1 =>
        if b1 then
          (valid_year year mode).bind fun b2 =>
            if b2 then some (!ex (outname root mode model v sc [year])) else some false
        else some false

/-- Monadic filter over Option: the first guard that raises (returns `none`)
aborts the whole enumeration, as an uncaught Python exception would. Guards
are evaluated left to right, in list order. -/
def filterOpt {α : Type} (f : α → Option Bool) : List α → Option (List α)
  | [] => some []
  | x :: xs =>
      (f x).bind fun b =>
        (filterOpt f xs).map fun rest => if b then x :: rest else rest

/-- Builds the FetchTask tuple of the comprehension from a candidate:
(str(args.mode), model, variable, scenario, [year]). -/
def mkTask (mode : String) (c : Option String × String × String × Int) : FetchTask :=
  { mode := mode, model := c.2.1, vr := c.2.2.1, scenario := c.1, years := [c.2.2.2] }

/-- The `stack` list comprehension of main: candidates in nesting order,
filtered by the three guards, each kept tuple becoming a FetchTask. `none`
models an uncaught exception during enumeration. -/
def enumerate_stack (root : String) (sel : List (Option String)) (mode : String)
    (msel vsel : List String) (y0 y1 : Int) (ex : String → Bool) :
    Option (List FetchTask) :=
  (filterOpt (keepO root mode ex) (stack_candidates sel mode msel vsel y0 y1)).map
    (List.map (mkTask mode))

/-- Pure value of valid_combo on the non-raising modes (see valid_combo_eq). -/
def valid_comboB (mode model v : String) (scenario : Option String) : Bool :=
  scenario_mode_ok mode scenario &&
    (match model_assocs model with
     | none => false
     | some hf => (if mode = "hist" then hf.1 else hf.2).contains v)

/-- Pure value of valid_year on the non-raising modes (see valid_year_eq). -/
def valid_yearB (year : Int) (mode : String) : Bool :=
  if mode = "hist" then decide (1985 ≤ year) && decide (year ≤ 2014)
  else decide (2015 ≤ year) && decide (year ≤ 2100)

/-- Pure value of the comprehension guard on the non-raising modes
(see keepO_eq). -/
def keepP (root mode : String) (ex : String → Bool) :
    Option String × String × String × Int → Bool :=
  fun c =>
    match c with
    | (sc, model, v, year) =>
        valid_comboB mode model v sc && valid_yearB year mode &&
          !ex (outname root mode model v sc [year])

/-- Pure value of the enumerator on the non-raising modes
(see enumerate_stack_eq). -/
def enumerateP (root : String) (sel : List (Option String)) (mode : String)
    (msel vsel : List String) (y0 y1 : Int) (ex : String → Bool) : List FetchTask :=
  ((stack_candidates sel mode msel vsel y0 y1).filter (keepP root mode ex)).map
    (mkTask mode)

/-- Abstract file system: an association list from path strings to file sizes
in bytes. Directories are not tracked (the loop only creates them
idempotently). -/
abbrev FS : Type := List (String × Nat)

/-- Path membership in the abstract file system (Path.exists). -/
def fileExists (fs : FS) (p : String) : Bool :=
  (fs : List (String × Nat)).any (fun e => e.1 == p)

/-- File removal (Path.unlink). -/
def fsErase (fs : FS) (p : String) : FS :=
  (fs : List (String × Nat)).filter (fun e => e.1 != p)

/-- File creation or overwrite with a given size. -/
def setFile (fs : FS) (p : String) (n : Nat) : FS :=
  ((p, n) :: (fsErase fs p : List (String × Nat)) : List (String × Nat))

/-- Outcome of one call of the external retrieval collaborator
`c.retrieve`: success writes the destination file (with some size); failure
raises with a message, having possibly left a partial file behind. -/
inductive RetrieveResult : Type where
  | ok (size : Nat)
  | err (msg : String) (partFile : Option Nat)
  deriving Repr, DecidableEq

/-- Observable events of one run of the fetch loop, in program order:
the external retrieve call, the info line for a download, the error line for
a failure, the info line for a deletion, and the fixed post-failure sleep. -/
inductive Event : Type where
  | retrieved (variant : String) (fname : String)
  | logDownloaded (years : List Int) (model : String) (scenario : Option String)
      (varname : String) (fname : String)
  | logFailed (years : List Int) (model : String) (scenario : Option String)
      (varname : String) (msg : String)
  | logDeleted (fname : String)
  | slept (secs : Nat)
  deriving Repr, DecidableEq

/-- One iteration of the fetch loop body (main, per-task): build the payload
(the call before the try block: an assertion failure there is uncaught,
modelled as `none`), compute the destination, then either skip the network in
dry-run mode (note: the code creates no file in that case) or call the
collaborator, logging the outcome; on failure, delete the destination if
present (logging the deletion) and sleep 5 seconds. -/
def run_step (root : String) (dry : Bool) (oracle : FetchTask → RetrieveResult)
    (fs : FS) (t : FetchTask) : Option (List Event × FS) :=
  (request_payload t.model t.vr t.scenario t.years).map fun _ =>
    let varname := cdd_varname t.vr
    let fname := outname root t.mode t.model t.vr t.scenario t.years
    if dry then
      ([Event.logDownloaded t.years t.model t.scenario varname fname], fs)
    else
      match oracle t with
      | RetrieveResult.ok size =>
          ([Event.retrieved (cdd_variant t.vr t.mode) fname,
            Event.logDownloaded t.years t.model t.scenario varname fname],
           setFile fs fname size)
      | RetrieveResult.err msg partFile =>
          let fs1 : FS :=
            match partFile with
            | some n => setFile fs fname n
            | none => fs
          let evs := [Event.retrieved (cdd_variant t.vr t.mode) fname,
                      Event.logFailed t.years t.model t.scenario varname msg]
          if fileExists fs1 fname then
            (evs ++ [Event.logDeleted fname, Event.slept 5], fsErase fs1 fname)
          else
            (evs ++ [Event.slept 5], fs1)

/-- The fetch loop over the enumerated stack, threading the file system and
concatenating the event traces of the iterations. -/
def run_loop (root : String) (dry : Bool) (oracle : FetchTask → RetrieveResult)
    (fs : FS) : List FetchTask → Option (List Event × FS)
  | [] => some ([], fs)
  | t :: rest =>
      (run_step root dry oracle fs t).bind fun r =>
        (run_loop root dry oracle r.2 rest).map fun r2 => (r.1 ++ r2.1, r2.2)

/-! Bridging lemmas: on the two modes the CLI can actually pass
(argparse restricts --mode to choices "hist" and "future"), none of the
guards raises, and the enumerator computes the pure filter. -/

theorem valid_combo_eq (hm : mode = "hist" ∨ mode = "future") (model v : String)
    (sc : Option String) :
    valid_combo mode model v sc = some (valid_comboB mode model v sc) := by
  rcases hm with hm | hm <;> subst hm <;>
    unfold valid_combo valid_comboB <;>
    cases model_assocs model <;> simp

theorem valid_year_eq (hm : mode = "hist" ∨ mode = "future") (y : Int) :
    valid_year y mode = some (valid_yearB y mode) := by
  rcases hm with hm | hm <;> subst hm <;> simp [valid_year, valid_yearB]

theorem keepO_eq (hm : mode = "hist" ∨ mode = "future") (root : String)
    (ex : String → Bool) (c : Option String × String × String × Int) :
    keepO root mode ex c = some (keepP root mode ex c) := by
  obtain ⟨sc, model, v, y⟩ := c
  unfold keepO keepP
  dsimp only
  rw [valid_combo_eq hm, valid_year_eq hm]
  cases hb1 : valid_comboB mode model v sc <;>
    cases hb2 : valid_yearB y mode <;> simp

theorem filterOpt_eq_filter {α : Type} (f : α → Option Bool) (g : α → Bool)
    (l : List α) (h : ∀ a ∈ l, f a = some (g a)) :
    filterOpt f l = some (l.filter g) := by
  induction l with
  | nil => simp [filterOpt]
  | cons x xs ih =>
      have hx := h x (List.mem_cons_self x xs)
      have hxs : ∀ a ∈ xs, f a = some (g a) := fun a ha => h a (List.mem_cons_of_mem x ha)
      simp [filterOpt, hx, ih hxs, List.filter_cons]

theorem enumerate_stack_eq (hm : mode = "hist" ∨ mode = "future") (root : String)
    (sel : List (Option String)) (msel vsel : List String) (y0 y1 : Int)
    (ex : String → Bool) :
    enumerate_stack root sel mode msel vsel y0 y1 ex =
      some (enumerateP root sel mode msel vsel y0 y1 ex) := by
  unfold enumerate_stack enumerateP
  rw [filterOpt_eq_filter (keepO root mode ex) (keepP root mode ex) _
    (fun a _ => keepO_eq hm root ex a)]
  simp

/-- Membership in the pure enumerator output, unfolded down to the four
generator lists and the guard. -/
theorem mem_enumerateP_iff (root : String) (sel : List (Option String)) (mode : String)
    (msel vsel : List String) (y0 y1 : Int) (ex : String → Bool) (t : FetchTask) :
    t ∈ enumerateP root sel mode msel vsel y0 y1 ex ↔
      ∃ sc model v y, sc ∈ make_scenarios sel mode ∧ model ∈ msel ∧ v ∈ vsel ∧
        y ∈ years_range y0 y1 ∧ keepP root mode ex (sc, model, v, y) = true ∧
        t = mkTask mode (sc, model, v, y) := by
  simp only [enumerateP, stack_candidates, List.mem_map, List.mem_filter,
    List.mem_flatMap]
  constructor
  · rintro ⟨c, ⟨⟨sc, hsc, model, hmodel, v, hv, ⟨y, hy, hc⟩⟩, hkeep⟩, ht⟩
    subst hc
    exact ⟨sc, model, v, y, hsc, hmodel, hv, hy, hkeep, ht.symm⟩
  · rintro ⟨sc, model, v, y, hsc, hmodel, hv, hy, hkeep, ht⟩
    exact ⟨(sc, model, v, y), ⟨⟨sc, hsc, model, hmodel, v, hv, ⟨y, hy, rfl⟩⟩, hkeep⟩, ht.symm⟩

/-- Splits the guard into its three conjuncts. -/
theorem keepP_parts {root mode : String} {ex : String → Bool}
    {sc : Option String} {model v : String} {y : Int}
    (h : keepP root mode ex (sc, model, v, y) = true) :
    valid_comboB mode model v sc = true ∧ valid_yearB y mode = true ∧
      ex (outname root mode model v sc [y]) = false := by
  simp only [keepP, Bool.and_eq_true, Bool.not_eq_true'] at h
  exact ⟨h.1.1, h.1.2, h.2⟩

/-- Splits valid_comboB into the scenario/mode test and the whitelist lookup. -/
theorem valid_comboB_parts {mode model v : String} {sc : Option String}
    (h : valid_comboB mode model v sc = true) :
    scenario_mode_ok mode sc = true ∧
      ∃ hf, model_assocs model = some hf ∧
        ((if mode = "hist" then hf.1 else hf.2).contains v = true) := by
  unfold valid_comboB at h
  cases hma : model_assocs model with
  | none => rw [hma] at h; simp at h
  | some hf =>
      rw [hma] at h
      simp only [Bool.and_eq_true] at h
      exact ⟨h.1, hf, rfl, h.2⟩

/-- Unfolds the scenario/mode pairing test into its two disjuncts. -/
theorem scenario_mode_ok_parts {mode : String} {sc : Option String}
    (h : scenario_mode_ok mode sc = true) :
    (mode = "future" ∧ ∃ s, sc = some s ∧ s ∈ scenarios_future) ∨
      (mode = "hist" ∧ sc = none) := by
  simp only [scenario_mode_ok, Bool.or_eq_true, Bool.and_eq_true, beq_iff_eq,
    List.elem_iff, List.mem_map] at h
  rcases h with ⟨⟨s, hs, hsome⟩, hmode⟩ | ⟨hnone, hmode⟩
  · exact Or.inl ⟨hmode, s, hsome.symm, hs⟩
  · exact Or.inr ⟨hmode, hnone⟩

/-- A model that is a key of models_var_assocs is one of the nine models. -/
theorem model_assocs_mem_models {model : String} {hf : List String × List String}
    (h : model_assocs model = some hf) : model ∈ models := by
  unfold model_assocs at h
  split at h <;> first
    | decide
    | simp at h

/-- Both per-mode whitelists of every model are drawn from the variable list. -/
theorem model_assocs_vars_subset {model : String} {hf : List String × List String}
    (h : model_assocs model = some hf) :
    (∀ v ∈ hf.1, v ∈ variables_list) ∧ (∀ v ∈ hf.2, v ∈ variables_list) := by
  unfold model_assocs at h
  split at h <;> first
    | (injection h with h; subst h;
       refine ⟨fun v hv => ?_, fun v hv => ?_⟩ <;>
         first
           | exact hv
           | (fin_cases hv <;> decide))
    | simp at h

/-- C6: for every user scenario selection list and mode, scenario resolution
behaves as: if the list contains the sentinel "default", it resolves to the
single absent-scenario value for mode "hist" and to exactly the fixed
scenario set [ssp126, ssp370] for mode "future"; otherwise the selection list
is returned literally and unchanged. -/
theorem c6_make_scenarios_resolution (sel : List (Option String)) (mode : String) :
    (sel.contains (some "default") = true →
      (mode = "hist" → make_scenarios sel mode = [none]) ∧
      (mode = "future" → make_scenarios sel mode = [some "ssp126", some "ssp370"])) ∧
    (sel.contains (some "default") = false → make_scenarios sel mode = sel) := by
  refine ⟨fun hdef => ?_, fun hdef => ?_⟩
  · have hmem : some "default" ∈ sel := List.elem_iff.mp hdef
    refine ⟨fun hm => ?_, fun hm => ?_⟩
    · subst hm; simp [make_scenarios, hmem]
    · subst hm; simp [make_scenarios, hmem, scenarios_future]
  · have hnm : ¬ some "default" ∈ sel := fun hmem => by
      have hc : sel.contains (some "default") = true := List.elem_iff.mpr hmem
      rw [hc] at hdef
      exact Bool.noConfusion hdef
    simp [make_scenarios, hnm]

/-- Witness for C6 at concrete selections. -/
theorem c6_make_scenarios_resolution_witness :
    make_scenarios [some "default"] "hist" = [none] ∧
    make_scenarios [some "default"] "future" = [some "ssp126", some "ssp370"] ∧
    make_scenarios [some "ssp370"] "future" = [some "ssp370"] :=
  ⟨((c6_make_scenarios_resolution [some "default"] "hist").1 (by decide)).1 rfl,
   ((c6_make_scenarios_resolution [some "default"] "future").1 (by decide)).2 rfl,
   (c6_make_scenarios_resolution [some "ssp370"] "future").2 (by decide)⟩

/-- C8: outname is a pure deterministic function of its inputs, and for a
valid scenario the path is root/mode/scenario/model/variableAdjust/years.nc,
while with the scenario absent the scenario segment is omitted. -/
theorem c8_outname_layout_deterministic (root mode model v s : String)
    (hs : s ∈ scenarios_future) (years : List Int) :
    outname root mode model v (some s) years =
      root ++ "/" ++ mode ++ "/" ++ s ++ "/" ++ model ++ "/" ++ cdd_varname v ++ "/" ++
        String.intercalate "_" (years.map (fun y => toString y)) ++ ".nc" ∧
    outname root mode model v none years =
      root ++ "/" ++ mode ++ "/" ++ model ++ "/" ++ cdd_varname v ++ "/" ++
        String.intercalate "_" (years.map (fun y => toString y)) ++ ".nc" ∧
    outname root mode model v (some s) years = outname root mode model v (some s) years := by
  have hne : ¬ s = "" := by
    simp only [scenarios_future, List.mem_cons, List.not_mem_nil, or_false] at hs
    rcases hs with h | h <;> subst h <;> decide
  exact ⟨by simp [outname, hne], rfl, rfl⟩

/-- Witness for C8 at a concrete input. -/
theorem c8_outname_layout_deterministic_witness :
    outname "root" "future" "CESM2" "tas" (some "ssp126") [2015] =
      "root" ++ "/" ++ "future" ++ "/" ++ "ssp126" ++ "/" ++ "CESM2" ++ "/" ++
        cdd_varname "tas" ++ "/" ++
        String.intercalate "_" ([(2015 : Int)].map (fun y => toString y)) ++ ".nc" :=
  (c8_outname_layout_deterministic "root" "future" "CESM2" "tas" "ssp126"
    (by decide) [2015]).1

/-- Everything a successful valid_combo run establishes: the scenario/mode
test passed, the model is a key of the association table, the variable is on
the per-mode whitelist, and the mode is one of the two real ones. -/
theorem valid_combo_true_parts {mode model v : String} {sc : Option String}
    (h : valid_combo mode model v sc = some true) :
    scenario_mode_ok mode sc = true ∧
      ∃ hf, model_assocs model = some hf ∧
        ((if mode = "hist" then hf.1 else hf.2).contains v = true) ∧
        (mode = "hist" ∨ mode = "future") := by
  unfold valid_combo at h
  split at h
  · simp at h
  · rename_i hf hma
    split at h
    · rename_i hhist
      simp only [Option.some.injEq, Bool.and_eq_true] at h
      exact ⟨h.1, hf, hma, by rw [if_pos hhist]; exact h.2, Or.inl hhist⟩
    · split at h
      · rename_i hnh hfut
        simp only [Option.some.injEq, Bool.and_eq_true] at h
        exact ⟨h.1, hf, hma, by rw [if_neg hnh]; exact h.2, Or.inr hfut⟩
      · simp at h

/-- C10: whenever valid_combo accepts a combination, the assertion at the
start of request_payload holds, so building the payload for an enumerated
task never raises an AssertionError. -/
theorem c10_valid_combo_implies_payload (mode model v : String) (sc : Option String)
    (years : List Int) (h : valid_combo mode model v sc = some true) :
    (request_payload model v sc years).isSome = true := by
  obtain ⟨hsmo, hf, hma, hcont, _⟩ := valid_combo_true_parts h
  have hsub := model_assocs_vars_subset hma
  have hmm : models.contains model = true := List.elem_iff.mpr (model_assocs_mem_models hma)
  suffices hpa : payload_assert model v sc = true by
    simp [request_payload, hpa]
  rcases scenario_mode_ok_parts hsmo with ⟨hfut, s, hssome, hsfut⟩ | ⟨hhist, hnone⟩
  · subst hfut
    rw [if_neg (by decide : ¬ ("future" : String) = "hist")] at hcont
    have hv : v ∈ variables_list := hsub.2 v (List.elem_iff.mp hcont)
    subst hssome
    simp only [payload_assert, Bool.and_eq_true, Bool.or_eq_true, beq_iff_eq,
      List.elem_iff]
    exact ⟨⟨model_assocs_mem_models hma, hv⟩,
      Or.inr (List.mem_map.mpr ⟨s, hsfut, rfl⟩)⟩
  · subst hhist
    rw [if_pos rfl] at hcont
    have hv : v ∈ variables_list := hsub.1 v (List.elem_iff.mp hcont)
    subst hnone
    simp only [payload_assert, Bool.and_eq_true, Bool.or_eq_true, beq_iff_eq,
      List.elem_iff]
    exact ⟨⟨model_assocs_mem_models hma, hv⟩, Or.inl trivial⟩

/-- Witness for C10 at a concrete accepted combination. -/
theorem c10_valid_combo_implies_payload_witness :
    valid_combo "future" "MIROC6" "hurs" (some "ssp370") = some true ∧
    (request_payload "MIROC6" "hurs" (some "ssp370") [2040]).isSome = true :=
  ⟨by decide,
   c10_valid_combo_implies_payload "future" "MIROC6" "hurs" (some "ssp370") [2040] (by decide)⟩

/-- Helper shared by the enumerator claims: with no "default" sentinel the
selection is passed through unchanged. -/
theorem make_scenarios_not_default {sel : List (Option String)} {mode : String}
    (hnd : sel.contains (some "default") = false) : make_scenarios sel mode = sel := by
  have hnm : ¬ some "default" ∈ sel := fun hmem => by
    have hc : sel.contains (some "default") = true := List.elem_iff.mpr hmem
    rw [hc] at hnd
    exact Bool.noConfusion hnd
  simp [make_scenarios, hnm]

/-- Decomposition of an enumerated task: it arises from a candidate tuple of
the four generator lists that passed all three filters. -/
theorem enumerated_task_parts {root : String} {sel : List (Option String)} {mode : String}
    {msel vsel : List String} {y0 y1 : Int} {ex : String → Bool} {stack : List FetchTask}
    {t : FetchTask} (hm : mode = "hist" ∨ mode = "future")
    (hs : enumerate_stack root sel mode msel vsel y0 y1 ex = some stack)
    (ht : t ∈ stack) :
    ∃ sc model v y,
      sc ∈ make_scenarios sel mode ∧ model ∈ msel ∧ v ∈ vsel ∧ y ∈ years_range y0 y1 ∧
      valid_comboB mode model v sc = true ∧ valid_yearB y mode = true ∧
      ex (outname root mode model v sc [y]) = false ∧
      t = mkTask mode (sc, model, v, y) := by
  rw [enumerate_stack_eq hm] at hs
  have hstack : stack = enumerateP root sel mode msel vsel y0 y1 ex :=
    (Option.some.inj hs).symm
  subst hstack
  obtain ⟨sc, model, v, y, h1, h2, h3, h4, hkeep, ht'⟩ :=
    (mem_enumerateP_iff root sel mode msel vsel y0 y1 ex t).mp ht
  obtain ⟨k1, k2, k3⟩ := keepP_parts hkeep
  exact ⟨sc, model, v, y, h1, h2, h3, h4, k1, k2, k3, ht'⟩

/-- C2: every task the enumerator emits has its variable on the per-model
per-mode whitelist models_var_assocs[model][mode]. -/
theorem c2_variable_in_whitelist {root : String} {sel : List (Option String)}
    {mode : String} {msel vsel : List String} {y0 y1 : Int} {ex : String → Bool}
    {stack : List FetchTask} {t : FetchTask} (hm : mode = "hist" ∨ mode = "future")
    (hs : enumerate_stack root sel mode msel vsel y0 y1 ex = some stack)
    (ht : t ∈ stack) :
    ∃ assoc, models_var_assocs t.model t.mode = some assoc ∧ t.vr ∈ assoc := by
  obtain ⟨sc, model, v, y, _, _, _, _, hvc, _, _, ht'⟩ := enumerated_task_parts hm hs ht
  subst ht'
  obtain ⟨_, hf, hma, hcont⟩ := valid_comboB_parts hvc
  rcases hm with hm | hm <;> subst hm
  · refine ⟨hf.1, ?_, ?_⟩
    · simp [models_var_assocs, mkTask, hma]
    · rw [if_pos rfl] at hcont
      simpa [mkTask] using List.elem_iff.mp hcont
  · refine ⟨hf.2, ?_, ?_⟩
    · simp [models_var_assocs, mkTask, hma]
    · rw [if_neg (by decide : ¬ ("future" : String) = "hist")] at hcont
      simpa [mkTask] using List.elem_iff.mp hcont

/-- Witness for C2 on a concrete single-task enumeration. -/
theorem c2_variable_in_whitelist_witness :
    ∃ assoc, models_var_assocs "CESM2" "hist" = some assoc ∧ "tas" ∈ assoc :=
  c2_variable_in_whitelist (Or.inl rfl)
    (rfl :
      enumerate_stack "root" [some "default"] "hist" ["CESM2"] ["tas"] 1985 1985
        (fun _ => false) =
        some [{ mode := "hist", model := "CESM2", vr := "tas", scenario := none,
                years := [1985] }])
    (List.mem_singleton.mpr rfl)

/-- C3: an emitted task carries a scenario iff the mode is future; under hist
the scenario is absent, and under future with an explicit (no sentinel)
selection the scenario lies in the selection intersected with the fixed
future-scenario set. -/
theorem c3_scenario_iff_future {root : String} {sel : List (Option String)}
    {mode : String} {msel vsel : List String} {y0 y1 : Int} {ex : String → Bool}
    {stack : List FetchTask} {t : FetchTask} (hm : mode = "hist" ∨ mode = "future")
    (hs : enumerate_stack root sel mode msel vsel y0 y1 ex = some stack)
    (ht : t ∈ stack) :
    (t.scenario.isSome = true ↔ t.mode = "future") ∧
    (t.mode = "hist" → t.scenario = none) ∧
    (sel.contains (some "default") = false → t.mode = "future" →
      t.scenario ∈ sel ∧ ∃ s, t.scenario = some s ∧ s ∈ scenarios_future) := by
  obtain ⟨sc, model, v, y, hsc, _, _, _, hvc, _, _, ht'⟩ := enumerated_task_parts hm hs ht
  subst ht'
  obtain ⟨hsmo, _, _, _⟩ := valid_comboB_parts hvc
  rcases scenario_mode_ok_parts hsmo with ⟨hfut, s, hssome, hsfut⟩ | ⟨hhist, hnone⟩
  · subst hfut
    subst hssome
    refine ⟨by simp [mkTask], fun hcontra => ?_, fun hnd _ => ?_⟩
    · exact absurd hcontra (by simp [mkTask])
    · rw [make_scenarios_not_default hnd] at hsc
      exact ⟨by simpa [mkTask] using hsc, s, by simp [mkTask], hsfut⟩
  · subst hhist
    subst hnone
    refine ⟨by simp [mkTask], fun _ => by simp [mkTask], fun _ hcontra => ?_⟩
    exact absurd hcontra (by simp [mkTask])

/-- Witness for C3 on a concrete single-task future enumeration. -/
theorem c3_scenario_iff_future_witness :
    (({ mode := "future", model := "CESM2", vr := "tas", scenario := some "ssp126",
        years := [2015] } : FetchTask).scenario.isSome = true ↔
      ({ mode := "future", model := "CESM2", vr := "tas", scenario := some "ssp126",
         years := [2015] } : FetchTask).mode = "future") ∧
    (({ mode := "future", model := "CESM2", vr := "tas", scenario := some "ssp126",
        years := [2015] } : FetchTask).mode = "hist" →
      ({ mode := "future", model := "CESM2", vr := "tas", scenario := some "ssp126",
         years := [2015] } : FetchTask).scenario = none) ∧
    (([some "ssp126"] : List (Option String)).contains (some "default") = false →
      ({ mode := "future", model := "CESM2", vr := "tas", scenario := some "ssp126",
         years := [2015] } : FetchTask).mode = "future" →
      ({ mode := "future", model := "CESM2", vr := "tas", scenario := some "ssp126",
         years := [2015] } : FetchTask).scenario ∈ ([some "ssp126"] : List (Option String)) ∧
      ∃ s, ({ mode := "future", model := "CESM2", vr := "tas", scenario := some "ssp126",
              years := [2015] } : FetchTask).scenario = some s ∧ s ∈ scenarios_future) :=
  c3_scenario_iff_future (Or.inr rfl)
    (rfl :
      enumerate_stack "root" [some "ssp126"] "future" ["CESM2"] ["tas"] 2015 2015
        (fun _ => false) =
        some [{ mode := "future", model := "CESM2", vr := "tas", scenario := some "ssp126",
                years := [2015] }])
    (List.mem_singleton.mpr rfl)

/-- C4: every emitted task has its year in the inclusive mode range,
[1985, 2014] for hist and [2015, 2100] for future; in particular no hist
task carries year 1984. -/
theorem c4_year_in_mode_range {root : String} {sel : List (Option String)}
    {mode : String} {msel vsel : List String} {y0 y1 : Int} {ex : String → Bool}
    {stack : List FetchTask} {t : FetchTask} (hm : mode = "hist" ∨ mode = "future")
    (hs : enumerate_stack root sel mode msel vsel y0 y1 ex = some stack)
    (ht : t ∈ stack) :
    (t.mode = "hist" → ∀ y ∈ t.years, 1985 ≤ y ∧ y ≤ 2014) ∧
    (t.mode = "future" → ∀ y ∈ t.years, 2015 ≤ y ∧ y ≤ 2100) ∧
    (t.mode = "hist" → ¬ t.years = [1984]) := by
  obtain ⟨sc, model, v, y, _, _, _, _, _, hvy, _, ht'⟩ := enumerated_task_parts hm hs ht
  subst ht'
  rcases hm with hm | hm <;> subst hm
  · rw [valid_yearB, if_pos rfl, Bool.and_eq_true, decide_eq_true_eq,
      decide_eq_true_eq] at hvy
    refine ⟨fun _ y' hy' => ?_, fun hcontra => absurd hcontra (by simp [mkTask]), ?_⟩
    · rw [show (mkTask "hist" (sc, model, v, y)).years = [y] from rfl,
        List.mem_singleton] at hy'
      subst hy'
      exact hvy
    · intro _ hys
      rw [show (mkTask "hist" (sc, model, v, y)).years = [y] from rfl,
        List.cons.injEq] at hys
      omega
  · rw [valid_yearB, if_neg (by decide : ¬ ("future" : String) = "hist"),
      Bool.and_eq_true, decide_eq_true_eq, decide_eq_true_eq] at hvy
    refine ⟨fun hcontra => absurd hcontra (by simp [mkTask]), fun _ y' hy' => ?_,
      fun hcontra => absurd hcontra (by simp [mkTask])⟩
    rw [show (mkTask "future" (sc, model, v, y)).years = [y] from rfl,
      List.mem_singleton] at hy'
    subst hy'
    exact hvy

/-- Witness for C4 on a concrete single-task hist enumeration. -/
theorem c4_year_in_mode_range_witness :
    (({ mode := "hist", model := "CESM2", vr := "tas", scenario := none,
        years := [1990] } : FetchTask).mode = "hist" →
      ∀ y ∈ ({ mode := "hist", model := "CESM2", vr := "tas", scenario := none,
               years := [1990] } : FetchTask).years, 1985 ≤ y ∧ y ≤ 2014) ∧
    (({ mode := "hist", model := "CESM2", vr := "tas", scenario := none,
        years := [1990] } : FetchTask).mode = "future" →
      ∀ y ∈ ({ mode := "hist", model := "CESM2", vr := "tas", scenario := none,
               years := [1990] } : FetchTask).years, 2015 ≤ y ∧ y ≤ 2100) ∧
    (({ mode := "hist", model := "CESM2", vr := "tas", scenario := none,
        years := [1990] } : FetchTask).mode = "hist" →
      ¬ ({ mode := "hist", model := "CESM2", vr := "tas", scenario := none,
           years := [1990] } : FetchTask).years = [1984]) :=
  c4_year_in_mode_range (Or.inl rfl)
    (rfl :
      enumerate_stack "root" [some "default"] "hist" ["CESM2"] ["tas"] 1990 1990
        (fun _ => false) =
        some [{ mode := "hist", model := "CESM2", vr := "tas", scenario := none,
                years := [1990] }])
    (List.mem_singleton.mpr rfl)

/-- C5: the freshness filter — no emitted task targets an already-existing
path, and enlarging the set of existing files (as a second run after some
downloads does) shrinks the enumeration to exactly the first list minus the
now-existing paths. -/
theorem c5_freshness_idempotent {root : String} {sel : List (Option String)}
    {mode : String} {msel vsel : List String} {y0 y1 : Int}
    (hm : mode = "hist" ∨ mode = "future") (E Ep : String → Bool)
    (hext : ∀ p, E p = true → Ep p = true)
    {l1 l2 : List FetchTask}
    (hs1 : enumerate_stack root sel mode msel vsel y0 y1 E = some l1)
    (hs2 : enumerate_stack root sel mode msel vsel y0 y1 Ep = some l2) :
    (∀ t ∈ l1, E (outname root t.mode t.model t.vr t.scenario t.years) = false) ∧
    l2 = l1.filter
      (fun t => !Ep (outname root t.mode t.model t.vr t.scenario t.years)) := by
  rw [enumerate_stack_eq hm] at hs1 hs2
  have h1 : l1 = enumerateP root sel mode msel vsel y0 y1 E := (Option.some.inj hs1).symm
  have h2 : l2 = enumerateP root sel mode msel vsel y0 y1 Ep := (Option.some.inj hs2).symm
  subst h1
  subst h2
  constructor
  · intro t ht
    obtain ⟨sc, model, v, y, _, _, _, _, hkeep, ht'⟩ :=
      (mem_enumerateP_iff root sel mode msel vsel y0 y1 E t).mp ht
    obtain ⟨_, _, hex⟩ := keepP_parts hkeep
    subst ht'
    exact hex
  · unfold enumerateP
    rw [List.filter_map, List.filter_filter]
    congr 1
    apply List.filter_congr
    intro c _
    obtain ⟨sc, model, v, y⟩ := c
    show keepP root mode Ep (sc, model, v, y) =
      ((!Ep (outname root mode model v sc [y])) && keepP root mode E (sc, model, v, y))
    unfold keepP
    cases hEp : Ep (outname root mode model v sc [y]) with
    | true => simp [hEp]
    | false =>
        have hE : E (outname root mode model v sc [y]) = false := by
          cases hE2 : E (outname root mode model v sc [y])
          · rfl
          · rw [hext _ hE2] at hEp
            exact Bool.noConfusion hEp
        simp [hEp, hE]

/-- Witness for C5: a two-year enumeration against an empty directory, then
against a directory already holding the 1985 file. -/
theorem c5_freshness_idempotent_witness :
    (∀ t ∈ [({ mode := "hist", model := "CESM2", vr := "tas", scenario := none,
               years := [1985] } : FetchTask),
            { mode := "hist", model := "CESM2", vr := "tas", scenario := none,
              years := [1986] }],
      (fun (_ : String) => false) (outname "root" t.mode t.model t.vr t.scenario t.years)
        = false) ∧
    [({ mode := "hist", model := "CESM2", vr := "tas", scenario := none,
        years := [1986] } : FetchTask)] =
      [({ mode := "hist", model := "CESM2", vr := "tas", scenario := none,
          years := [1985] } : FetchTask),
       { mode := "hist", model := "CESM2", vr := "tas", scenario := none,
         years := [1986] }].filter
        (fun t => !(fun p => p == "root/hist/CESM2/tasAdjust/1985.nc")
          (outname "root" t.mode t.model t.vr t.scenario t.years)) :=
  c5_freshness_idempotent (Or.inl rfl) (fun _ => false)
    (fun p => p == "root/hist/CESM2/tasAdjust/1985.nc")
    (fun _ h => Bool.noConfusion h)
    (rfl :
      enumerate_stack "root" [some "default"] "hist" ["CESM2"] ["tas"] 1985 1986
        (fun _ => false) = some _)
    (rfl :
      enumerate_stack "root" [some "default"] "hist" ["CESM2"] ["tas"] 1985 1986
        (fun p => p == "root/hist/CESM2/tasAdjust/1985.nc") = some _)

/-- Spec-side formulation of the enumerator for C9: the Cartesian product of
the four generator lists, built with the standard in-order product combinator
(first factor outermost, last factor innermost), then restricted by the
filters and turned into tasks. -/
def spec_cartesian_tasks (root : String) (sel : List (Option String)) (mode : String)
    (msel vsel : List String) (y0 y1 : Int) (ex : String → Bool) : List FetchTask :=
  (((make_scenarios sel mode).product
      (msel.product (vsel.product (years_range y0 y1)))).filter
    (keepP root mode ex)).map (mkTask mode)

/-- The nested flatMap of the comprehension is the in-order Cartesian
product. -/
theorem stack_candidates_eq_product (sel : List (Option String)) (mode : String)
    (msel vsel : List String) (y0 y1 : Int) :
    stack_candidates sel mode msel vsel y0 y1 =
      (make_scenarios sel mode).product
        (msel.product (vsel.product (years_range y0 y1))) := by
  unfold stack_candidates List.product
  simp [List.map_flatMap, List.map_map, Function.comp_def]

/-- C9: the enumerator output is exactly the Cartesian product
scenarios × models × variables × years in that nesting order (scenario
outermost, year innermost), restricted to the tuples passing the validity,
year and freshness filters. -/
theorem c9_cartesian_order {root : String} {sel : List (Option String)} {mode : String}
    {msel vsel : List String} {y0 y1 : Int} {ex : String → Bool}
    (hm : mode = "hist" ∨ mode = "future") :
    enumerate_stack root sel mode msel vsel y0 y1 ex =
      some (spec_cartesian_tasks root sel mode msel vsel y0 y1 ex) := by
  rw [enumerate_stack_eq hm]
  unfold enumerateP spec_cartesian_tasks
  rw [stack_candidates_eq_product]

/-- Witness for C9 at a concrete future enumeration. -/
theorem c9_cartesian_order_witness :
    enumerate_stack "root" [some "default"] "future" ["CESM2", "MIROC6"] ["tas", "pr"]
      2015 2016 (fun _ => false) =
      some (spec_cartesian_tasks "root" [some "default"] "future" ["CESM2", "MIROC6"]
        ["tas", "pr"] 2015 2016 (fun _ => false)) :=
  c9_cartesian_order (Or.inr rfl)

/-- A freshly written file exists. -/
theorem fileExists_setFile (fs : FS) (p : String) (n : Nat) :
    fileExists (setFile fs p n) p = true := by
  simp [fileExists, setFile]

/-- An erased file no longer exists. -/
theorem fileExists_fsErase (fs : FS) (p : String) :
    fileExists (fsErase fs p) p = false := by
  induction fs with
  | nil => rfl
  | cons e rest ih => by_cases he : e.1 = p <;> simp_all [fileExists, fsErase]

/-- The file system as the except branch of the loop sees it: the failed
retrieve may have left a partial file at the destination. -/
def partialFS (fs : FS) (fname : String) (partFile : Option Nat) : FS :=
  match partFile with
  | some n => setFile fs fname n
  | none => fs

/-- If the destination pre-existed or the failed retrieve left a partial
file, the destination exists when the except branch tests it. -/
theorem fileExists_partialFS (fs : FS) (fname : String) (partFile : Option Nat)
    (h : fileExists fs fname = true ∨ partFile.isSome = true) :
    fileExists (partialFS fs fname partFile) fname = true := by
  cases partFile with
  | some n => exact fileExists_setFile fs fname n
  | none =>
      rcases h with h | h
      · exact h
      · exact Bool.noConfusion h

/-- Equation lemma: the loop on a nonempty stack runs the head task and then
the rest. -/
theorem run_loop_cons (root : String) (dry : Bool)
    (oracle : FetchTask → RetrieveResult) (fs : FS) (t : FetchTask)
    (rest : List FetchTask) :
    run_loop root dry oracle fs (t :: rest) =
      (run_step root dry oracle fs t).bind fun r =>
        (run_loop root dry oracle r.2 rest).map fun r2 => (r.1 ++ r2.1, r2.2) := rfl

/-- What one loop iteration does when the collaborator raises: error line,
conditional deletion, 5-second sleep. -/
theorem run_step_err_eq (root : String) (oracle : FetchTask → RetrieveResult)
    (fs : FS) (t : FetchTask) (msg : String) (partFile : Option Nat) (p : Payload)
    (ho : oracle t = RetrieveResult.err msg partFile)
    (hp : request_payload t.model t.vr t.scenario t.years = some p) :
    run_step root false oracle fs t =
      some
        (if fileExists
              (partialFS fs (outname root t.mode t.model t.vr t.scenario t.years)
                partFile)
              (outname root t.mode t.model t.vr t.scenario t.years) then
           ([Event.retrieved (cdd_variant t.vr t.mode)
               (outname root t.mode t.model t.vr t.scenario t.years),
             Event.logFailed t.years t.model t.scenario (cdd_varname t.vr) msg,
             Event.logDeleted (outname root t.mode t.model t.vr t.scenario t.years),
             Event.slept 5],
            fsErase
              (partialFS fs (outname root t.mode t.model t.vr t.scenario t.years)
                partFile)
              (outname root t.mode t.model t.vr t.scenario t.years))
         else
           ([Event.retrieved (cdd_variant t.vr t.mode)
               (outname root t.mode t.model t.vr t.scenario t.years),
             Event.logFailed t.years t.model t.scenario (cdd_varname t.vr) msg,
             Event.slept 5],
            partialFS fs (outname root t.mode t.model t.vr t.scenario t.years)
              partFile)) := by
  unfold run_step partialFS
  rw [hp]
  simp only [Option.map_some', ho]
  rfl

/-- C7: when the retrieval collaborator raises for a task, the loop logs an
error record with the identifying fields and the message, deletes the
destination when present (logging the deletion), sleeps the fixed 5 seconds,
and still executes the remaining tasks: the whole-run trace is the failure
trace of this task followed by the trace of the rest. -/
theorem c7_failure_continues (root : String) (oracle : FetchTask → RetrieveResult)
    (fs : FS) (t : FetchTask) (rest : List FetchTask) (msg : String)
    (partFile : Option Nat) (ho : oracle t = RetrieveResult.err msg partFile)
    (hp : (request_payload t.model t.vr t.scenario t.years).isSome = true) :
    ∃ evs fs2,
      run_step root false oracle fs t = some (evs, fs2) ∧
      run_loop root false oracle fs (t :: rest) =
        (run_loop root false oracle fs2 rest).map (fun r => (evs ++ r.1, r.2)) ∧
      Event.logFailed t.years t.model t.scenario (cdd_varname t.vr) msg ∈ evs ∧
      Event.slept 5 ∈ evs ∧
      fileExists fs2 (outname root t.mode t.model t.vr t.scenario t.years) = false ∧
      ((fileExists fs (outname root t.mode t.model t.vr t.scenario t.years) = true ∨
          partFile.isSome = true) →
        Event.logDeleted (outname root t.mode t.model t.vr t.scenario t.years) ∈ evs) := by
  obtain ⟨p, hp2⟩ := Option.isSome_iff_exists.mp hp
  have hstep := run_step_err_eq root oracle fs t msg partFile p ho hp2
  by_cases hfe :
    fileExists (partialFS fs (outname root t.mode t.model t.vr t.scenario t.years)
        partFile)
      (outname root t.mode t.model t.vr t.scenario t.years) = true
  · rw [if_pos hfe] at hstep
    refine ⟨_, _, hstep, ?_, by simp, by simp, fileExists_fsErase _ _, fun _ => by simp⟩
    rw [run_loop_cons, hstep]
    rfl
  · rw [if_neg hfe] at hstep
    refine ⟨_, _, hstep, ?_, by simp, by simp, Bool.not_eq_true _ ▸ hfe,
      fun hcase => absurd (fileExists_partialFS fs _ partFile hcase) hfe⟩
    rw [run_loop_cons, hstep]
    rfl

/-- Witness for C7: a concrete failing retrieval with a partial file, before
a second task that still runs. -/
theorem c7_failure_continues_witness :
    ∃ evs fs2,
      run_step "root" false
        (fun _ => RetrieveResult.err "boom" (some 3)) ([] : FS)
        { mode := "hist", model := "CESM2", vr := "tas", scenario := none,
          years := [1985] } = some (evs, fs2) ∧
      run_loop "root" false (fun _ => RetrieveResult.err "boom" (some 3)) ([] : FS)
        [{ mode := "hist", model := "CESM2", vr := "tas", scenario := none,
           years := [1985] },
         { mode := "hist", model := "CESM2", vr := "tas", scenario := none,
           years := [1986] }] =
        (run_loop "root" false (fun _ => RetrieveResult.err "boom" (some 3)) fs2
          [{ mode := "hist", model := "CESM2", vr := "tas", scenario := none,
             years := [1986] }]).map (fun r => (evs ++ r.1, r.2)) ∧
      Event.logFailed [1985] "CESM2" none (cdd_varname "tas") "boom" ∈ evs ∧
      Event.slept 5 ∈ evs ∧
      fileExists fs2 (outname "root" "hist" "CESM2" "tas" none [1985]) = false ∧
      ((fileExists ([] : FS) (outname "root" "hist" "CESM2" "tas" none [1985]) = true ∨
          (some 3 : Option Nat).isSome = true) →
        Event.logDeleted (outname "root" "hist" "CESM2" "tas" none [1985]) ∈ evs) :=
  c7_failure_continues "root" (fun _ => RetrieveResult.err "boom" (some 3)) ([] : FS)
    { mode := "hist", model := "CESM2", vr := "tas", scenario := none, years := [1985] }
    [{ mode := "hist", model := "CESM2", vr := "tas", scenario := none, years := [1986] }]
    "boom" (some 3) rfl (by decide)

/-- C1 evidence: on the two-task dry-run scenario the loop logs two success
lines but the final file system is empty — no placeholder file is created at
either OutputPath, although the --dry-run help text promises empty files. -/
theorem c1_dry_run_creates_no_files :
    enumerate_stack "root" [some "default"] "hist" ["CESM2"] ["tas"] 1985 1986
      (fun _ => false) =
      some [{ mode := "hist", model := "CESM2", vr := "tas", scenario := none,
              years := [1985] },
            { mode := "hist", model := "CESM2", vr := "tas", scenario := none,
              years := [1986] }] ∧
    run_loop "root" true (fun _ => RetrieveResult.ok 1) ([] : FS)
      [{ mode := "hist", model := "CESM2", vr := "tas", scenario := none,
         years := [1985] },
       { mode := "hist", model := "CESM2", vr := "tas", scenario := none,
         years := [1986] }] =
      some ([Event.logDownloaded [1985] "CESM2" none "tasAdjust"
               "root/hist/CESM2/tasAdjust/1985.nc",
             Event.logDownloaded [1986] "CESM2" none "tasAdjust"
               "root/hist/CESM2/tasAdjust/1986.nc"], ([] : FS)) ∧
    fileExists ([] : FS) "root/hist/CESM2/tasAdjust/1985.nc" = false ∧
    fileExists ([] : FS) "root/hist/CESM2/tasAdjust/1986.nc" = false :=
  ⟨rfl, rfl, rfl, rfl⟩

end DataDownload
